import Mathlib

/-!
# Restaurant table scheduler: shallow embedding

A Lean embedding of the reservation scheduler of the
`restaurant-table-placement` repository:

* `src/lib/availability.ts` — `calculateAvailability`,
  `findAvailableTableForSlot`, `isTableAvailable`, `findAvailableTable`;
* the reservation creation route (`POST /api/reservations`);
* the cancellation route (`PATCH /api/reservations/[id]`).

Conventions of the embedding:

* Absolute instants (`Date` values, `getTime()`) are `Int` milliseconds.
* Wall-clock times parsed from `"HH:mm"` strings are `Int` minutes from
  midnight; a date is represented by the epoch instant of its midnight
  (`dateStart`) together with its day-of-week number, so
  `new Date(y, m, d, hh, mm)` becomes `dateStart + (60*hh + mm) * 60000`.
* `addMinutes t m` is `t + m * 60000`; `isBefore`/`isAfter` are `<`/`>`
  on the millisecond instants.
* The Prisma store is a list of restaurants (with their configuration
  relations inlined) plus a flat list of reservation rows; the `where`
  clauses of the queries become list `filter`s / `find?`s.
* JavaScript `x || default` on a nullable number is modelled by an
  explicit test for `none`/`0` (`0` is falsy), and the truthiness test
  `if (policy?.hoursBeforeNoFee)` likewise treats `some 0` as false.
-/

/-- Milliseconds in one minute (`addMinutes` works on `getTime()` values). -/
def msPerMinute : Int := 60000

/-- Milliseconds in one hour (used by the cancellation window check). -/
def msPerHour : Int := 3600000

/-- `Table` row: capacity range and joinability flag. -/
structure Table where
  id : String
  capacityMin : Int
  capacityMax : Int
  isJoinable : Bool
  deriving Repr, DecidableEq

/-- `ReservationStatus` enum from the Prisma schema. -/
inductive ReservationStatus where
  | PENDING | CONFIRMED | CANCELLED | COMPLETED | NO_SHOW
  deriving Repr, DecidableEq

/-- `Reservation` row (the fields the scheduler reads and writes). -/
structure Reservation where
  id : String
  userId : String
  restaurantId : String
  tableId : Option String
  /-- `reservationTime` as epoch milliseconds. -/
  reservationTime : Int
  partySize : Int
  status : ReservationStatus
  /-- `turnTimeUsed` in minutes, captured at creation. -/
  turnTimeUsed : Int
  deriving Repr, DecidableEq

/-- `OperatingHours` row; open/close as minutes from midnight. -/
structure OperatingHours where
  dayOfWeek : Int
  openTime : Int
  closeTime : Int
  deriving Repr, DecidableEq

/-- `TurnTimeRule` row. -/
structure TurnTimeRule where
  partySizeMin : Int
  partySizeMax : Int
  turnTimeInMinutes : Int
  deriving Repr, DecidableEq

/-- `CancellationPolicy` row. -/
structure CancellationPolicy where
  hoursBeforeNoFee : Option Int
  allowOnlineCancellation : Bool
  deriving Repr, DecidableEq

/-- A restaurant with its configuration relations inlined. -/
structure Restaurant where
  id : String
  tables : List Table
  operatingHours : List OperatingHours
  turnTimeRules : List TurnTimeRule
  cancellationPolicy : Option CancellationPolicy
  deriving Repr, DecidableEq

/-- The persisted state the scheduler reads and mutates. -/
structure Store where
  restaurants : List Restaurant
  reservations : List Reservation
  deriving Repr, DecidableEq

/-- `prisma.restaurant.findUnique({ where: { id } })`. -/
def Store.findRestaurant (s : Store) (rid : String) : Option Restaurant :=
  s.restaurants.find? (fun r => r.id == rid)

/-- The reservation end instant: `addMinutes(reservationTime, turnTimeUsed)`. -/
def Reservation.endTime (r : Reservation) : Int :=
  r.reservationTime + r.turnTimeUsed * msPerMinute

/-- The `status: { in: ['PENDING', 'CONFIRMED'] }` filter. -/
def Reservation.isActive (r : Reservation) : Bool :=
  r.status == .PENDING || r.status == .CONFIRMED

/-- `isTableAvailable` from `src/lib/availability.ts`: the table is free on
`[slotStartTime, slotEndTime)` iff no reservation row with this `tableId`
satisfies `isBefore(slotStartTime, reservationEnd) && isAfter(slotEndTime,
reservationStart)`. -/
def isTableAvailable (table : Table) (reservations : List Reservation)
    (slotStartTime slotEndTime : Int) : Bool :=
  (reservations.filter (fun r =>
    r.tableId == some table.id &&
    slotStartTime < r.endTime &&
    slotEndTime > r.reservationTime)).length == 0

/-- First `for` loop of `findAvailableTableForSlot`: the first table whose
`[capacityMin, capacityMax]` contains the party size and that is free. -/
def loopIdealTable (reservations : List Reservation)
    (slotStart slotEnd partySize : Int) : List Table → Option String
  | [] => none
  | t :: ts =>
    if t.capacityMin ≤ partySize ∧ partySize ≤ t.capacityMax then
      if isTableAvailable t reservations slotStart slotEnd then some t.id
      else loopIdealTable reservations slotStart slotEnd partySize ts
    else loopIdealTable reservations slotStart slotEnd partySize ts

/-- Second `for` loop: the first free table with `partySize <= capacityMax`. -/
def loopLargerTable (reservations : List Reservation)
    (slotStart slotEnd partySize : Int) : List Table → Option String
  | [] => none
  | t :: ts =>
    if partySize ≤ t.capacityMax then
      if isTableAvailable t reservations slotStart slotEnd then some t.id
      else loopLargerTable reservations slotStart slotEnd partySize ts
    else loopLargerTable reservations slotStart slotEnd partySize ts

/-- Inner `for` loop over `j > i` of the joinable-pair search, with `table1`
fixed: capacity sums must straddle the party size and both tables must be
free; the primary table's id is returned. -/
def loopJoinInner (t1 : Table) (reservations : List Reservation)
    (slotStart slotEnd partySize : Int) : List Table → Option String
  | [] => none
  | t2 :: ts =>
    if t1.capacityMin + t2.capacityMin ≤ partySize ∧
        partySize ≤ t1.capacityMax + t2.capacityMax then
      if isTableAvailable t1 reservations slotStart slotEnd &&
          isTableAvailable t2 reservations slotStart slotEnd then
        some t1.id
      else loopJoinInner t1 reservations slotStart slotEnd partySize ts
    else loopJoinInner t1 reservations slotStart slotEnd partySize ts

/-- Outer `for` loop over `i` of the joinable-pair search. -/
def loopJoinOuter (reservations : List Reservation)
    (slotStart slotEnd partySize : Int) : List Table → Option String
  | [] => none
  | t1 :: ts =>
    match loopJoinInner t1 reservations slotStart slotEnd partySize ts with
    | some tid => some tid
    | none => loopJoinOuter reservations slotStart slotEnd partySize ts

/-- `findAvailableTableForSlot` from `src/lib/availability.ts`: ideal single
table, then any large-enough single table, then pairs of `isJoinable`
tables in order. -/
def findAvailableTableForSlot (tables : List Table)
    (reservations : List Reservation)
    (slotStartTime slotEndTime partySize : Int) : Option String :=
  match loopIdealTable reservations slotStartTime slotEndTime partySize tables with
  | some tid => some tid
  | none =>
    match loopLargerTable reservations slotStartTime slotEndTime partySize tables with
    | some tid => some tid
    | none =>
      loopJoinOuter reservations slotStartTime slotEndTime partySize
        (tables.filter (fun t => t.isJoinable))

/-- Turn-time resolution shared by `calculateAvailability` and the creation
route: the first `TurnTimeRule` whose `[partySizeMin, partySizeMax]` contains
the party size, with `turnTimeRule?.turnTimeInMinutes || 120` (so a missing
rule, and a rule whose minutes are `0` — falsy in JavaScript — both yield the
120-minute default). -/
def resolveTurnTime (rules : List TurnTimeRule) (partySize : Int) : Int :=
  match (rules.filter (fun tr =>
      tr.partySizeMin ≤ partySize && partySize ≤ tr.partySizeMax)).head? with
  | none => 120
  | some tr => if tr.turnTimeInMinutes == 0 then 120 else tr.turnTimeInMinutes

/-- One availability slot: `time` in minutes from the date's midnight
(`format(currentTime, 'HH:mm')`), plus the availability flag and assigned
table of `findAvailableTableForSlot`. -/
structure AvailabilitySlot where
  time : Int
  available : Bool
  tableId : Option String
  deriving Repr, DecidableEq

/-- The reservation filter of `calculateAvailability`'s Prisma query: this
restaurant's rows with `reservationTime` in `[dateT00:00:00, dateT23:59:59)`
and status `PENDING`/`CONFIRMED`. -/
def reservationsOnDate (s : Store) (rid : String) (dateStart : Int) :
    List Reservation :=
  s.reservations.filter (fun r =>
    r.restaurantId == rid &&
    dateStart ≤ r.reservationTime &&
    r.reservationTime < dateStart + 86399000 &&
    r.isActive)

/-- The `while` loop of `calculateAvailability`: slots every 30 minutes from
`currentTime` while `currentTime <= lastBookingTime`, capped at `maxSlots =
30` iterations (the `fuel`). `cur` is minutes from the date's midnight, so
the absolute slot start is `dateStart + cur * msPerMinute`. -/
def genSlots (tables : List Table) (reservations : List Reservation)
    (dateStart turnTime lastBookingTime partySize : Int) :
    Int → Nat → List AvailabilitySlot
  | _, 0 => []
  | cur, fuel + 1 =>
    if dateStart + cur * msPerMinute ≤ lastBookingTime then
      { time := cur,
        available := (findAvailableTableForSlot tables reservations
          (dateStart + cur * msPerMinute)
          (dateStart + cur * msPerMinute + turnTime * msPerMinute)
          partySize).isSome,
        tableId := findAvailableTableForSlot tables reservations
          (dateStart + cur * msPerMinute)
          (dateStart + cur * msPerMinute + turnTime * msPerMinute)
          partySize } ::
        genSlots tables reservations dateStart turnTime lastBookingTime
          partySize (cur + 30) fuel
    else []

/-- `calculateAvailability` from `src/lib/availability.ts`. The date is
given by the epoch instant of its midnight and its resolved day-of-week;
open/close times arrive parsed to minutes, on which the source's
`openHour/openMinute` range validation becomes `0 ≤ t < 1440`. All degraded
configurations return `[]`. -/
def calculateAvailability (s : Store) (restaurantId : String)
    (dateStart dayOfWeek partySize : Int) : List AvailabilitySlot :=
  match s.findRestaurant restaurantId with
  | none => []
  | some restaurant =>
    match restaurant.operatingHours.find? (fun oh => oh.dayOfWeek == dayOfWeek) with
    | none => [] -- restaurant closed on this day
    | some operatingHour =>
      let turnTime := resolveTurnTime restaurant.turnTimeRules partySize
      if ¬ (0 ≤ operatingHour.openTime ∧ operatingHour.openTime < 1440 ∧
            0 ≤ operatingHour.closeTime ∧ operatingHour.closeTime < 1440) then
        [] -- invalid parsed time components
      else
        let openTime := dateStart + operatingHour.openTime * msPerMinute
        let closeTime := dateStart + operatingHour.closeTime * msPerMinute
        let lastBookingTime := closeTime - turnTime * msPerMinute
        if openTime > closeTime then []
        else if openTime > lastBookingTime then []
        else if turnTime ≤ 0 ∨ turnTime > 480 then []
        else
          genSlots restaurant.tables
            (reservationsOnDate s restaurantId dateStart)
            dateStart turnTime lastBookingTime partySize
            operatingHour.openTime 30

/-- `findAvailableTable` from `src/lib/availability.ts`: same matcher, but
over all of the restaurant's PENDING/CONFIRMED reservations (no date
filter). -/
def findAvailableTable (s : Store) (restaurantId : String)
    (reservationTime partySize turnTime : Int) : Option String :=
  match s.findRestaurant restaurantId with
  | none => none
  | some restaurant =>
    findAvailableTableForSlot restaurant.tables
      (s.reservations.filter (fun r =>
        r.restaurantId == restaurantId && r.isActive))
      reservationTime
      (reservationTime + turnTime * msPerMinute)
      partySize

/-- Error responses of `POST /api/reservations`. -/
inductive CreateError where
  | invalidPartySize   -- 400: party size outside [1, 20]
  | pastTime           -- 400: reservation time in the past
  | restaurantNotFound -- 404
  | noAvailability     -- 409: no available tables for the requested time
  deriving Repr, DecidableEq

/-- The read phase of the creation route: validations, restaurant lookup,
turn-time resolution and the `findAvailableTable` availability check. It
performs no write; it returns the assigned table id and the resolved turn
time. -/
def postCheck (s : Store) (now : Int) (restaurantId : String)
    (reservationTime partySize : Int) :
    Except CreateError (String × Int) :=
  if partySize < 1 ∨ partySize > 20 then .error .invalidPartySize
  else if reservationTime < now then .error .pastTime
  else
    match s.findRestaurant restaurantId with
    | none => .error .restaurantNotFound
    | some restaurant =>
      let turnTime := resolveTurnTime restaurant.turnTimeRules partySize
      match findAvailableTable s restaurantId reservationTime partySize turnTime with
      | none => .error .noAvailability
      | some tableId => .ok (tableId, turnTime)

/-- The write phase of the creation route: `prisma.reservation.create` with
the checked table, `turnTimeUsed` fixed now, and status `CONFIRMED` when
auto-confirm was requested, else `PENDING`. -/
def postWrite (s : Store) (r : Reservation) : Store :=
  { s with reservations := s.reservations ++ [r] }

/-- The reservation row built by the creation route. -/
def newReservation (userId restaurantId tableId : String)
    (reservationTime partySize turnTime : Int) (autoConfirm : Bool)
    (newId : String) : Reservation :=
  { id := newId, userId := userId, restaurantId := restaurantId,
    tableId := some tableId, reservationTime := reservationTime,
    partySize := partySize,
    status := if autoConfirm then .CONFIRMED else .PENDING,
    turnTimeUsed := turnTime }

/-- `POST /api/reservations` run in isolation: the availability check
followed immediately by the write, with no interleaved operation. -/
def post (s : Store) (now : Int) (userId restaurantId : String)
    (reservationTime partySize : Int) (autoConfirm : Bool) (newId : String) :
    Except CreateError (Reservation × Store) :=
  match postCheck s now restaurantId reservationTime partySize with
  | .error e => .error e
  | .ok (tableId, turnTime) =>
    let r := newReservation userId restaurantId tableId reservationTime
      partySize turnTime autoConfirm newId
    .ok (r, postWrite s r)

/-- Error responses of `PATCH /api/reservations/[id]` (`action: 'cancel'`). -/
inductive CancelError where
  | notFound                      -- 404
  | alreadyCancelled              -- 400: already cancelled
  | alreadyCompleted              -- 400: cannot cancel a completed reservation
  | onlineCancellationDisallowed  -- 403
  | tooLateToCancel               -- 400: inside the `hoursBeforeNoFee` window
  deriving Repr, DecidableEq

/-- `PATCH /api/reservations/[id]` with `action: 'cancel'`. The guards run
in source order: not-found, already-cancelled, already-completed, the
policy's `allowOnlineCancellation` gate, then — only when
`policy?.hoursBeforeNoFee` is truthy (present and non-zero) — the window
check `(reservationTime - now) / msPerHour < hoursBeforeNoFee`, stated
integrally as `reservationTime - now < hoursBeforeNoFee * msPerHour`. On
success the row's status becomes `CANCELLED`. -/
def patchCancel (s : Store) (now : Int) (reservationId : String) :
    Except CancelError (Reservation × Store) :=
  match s.reservations.find? (fun r => r.id == reservationId) with
  | none => .error .notFound
  | some r =>
    if r.status == .CANCELLED then .error .alreadyCancelled
    else if r.status == .COMPLETED then .error .alreadyCompleted
    else
      let policy := (s.findRestaurant r.restaurantId).bind
        (fun rest => rest.cancellationPolicy)
      if (policy.map (fun p => !p.allowOnlineCancellation)).getD false then
        .error .onlineCancellationDisallowed
      else
        let hoursGate :=
          match policy.bind (fun p => p.hoursBeforeNoFee) with
          | none => false
          | some h => h != 0 && r.reservationTime - now < h * msPerHour
        if hoursGate then .error .tooLateToCancel
        else
          let cancelled := { r with status := .CANCELLED }
          .ok (cancelled,
            { s with reservations := s.reservations.map (fun x =>
                if x.id == reservationId then { x with status := .CANCELLED }
                else x) })

/-- Two reservations double-book a table: both PENDING/CONFIRMED, same
non-null `tableId`, and their half-open occupancy intervals overlap
(Invariant I1 is their non-existence). -/
def conflictsWith (a b : Reservation) : Bool :=
  a.isActive && b.isActive && a.tableId.isSome && a.tableId == b.tableId &&
  a.reservationTime < b.endTime && b.reservationTime < a.endTime

/-- A reservation list violates Invariant I1: some two distinct rows
double-book the same table. -/
def hasDoubleBooking : List Reservation → Bool
  | [] => false
  | r :: rs => rs.any (fun x => conflictsWith r x) || hasDoubleBooking rs

/-! ## Concrete scenario fixtures

The §8 scenario: a restaurant with one table of capacity `[2, 4]`, open
17:00–22:00 (minutes 1020–1320) on day-of-week 0, a turn-time rule giving
90 minutes for every party size; date fixed at epoch midnight
(`dateStart = 0`). -/

/-- The single `[2, 4]` table of the scenario. -/
def tableA : Table :=
  { id := "t1", capacityMin := 2, capacityMax := 4, isJoinable := false }

/-- The scenario restaurant: open 17:00–22:00, 90-minute turn time. -/
def scenarioRestaurant : Restaurant :=
  { id := "r1", tables := [tableA],
    operatingHours := [{ dayOfWeek := 0, openTime := 1020, closeTime := 1320 }],
    turnTimeRules := [{ partySizeMin := 1, partySizeMax := 20, turnTimeInMinutes := 90 }],
    cancellationPolicy := none }

/-- The scenario store, with no reservations yet. -/
def scenarioStore : Store :=
  { restaurants := [scenarioRestaurant], reservations := [] }

/-- 19:00 on the scenario date, in epoch milliseconds (1140 minutes). -/
def sevenPm : Int := 1140 * msPerMinute

/-- A two-joinable-table restaurant (both capacity `[4, 6]`), same hours and
turn time as the scenario. -/
def joinRestaurant : Restaurant :=
  { id := "r2",
    tables := [{ id := "t1", capacityMin := 4, capacityMax := 6, isJoinable := true },
               { id := "t2", capacityMin := 4, capacityMax := 6, isJoinable := true }],
    operatingHours := [{ dayOfWeek := 0, openTime := 1020, closeTime := 1320 }],
    turnTimeRules := [{ partySizeMin := 1, partySizeMax := 20, turnTimeInMinutes := 90 }],
    cancellationPolicy := none }

/-- Store for the joinable-pair scenario. -/
def joinStore : Store :=
  { restaurants := [joinRestaurant], reservations := [] }

/-! ## Spec-side table matcher

A second matcher definition following the spec's own wording of §4.2, to be
compared with the source embedding `findAvailableTableForSlot`. -/

/-- The predicate the pair search applies to a pair of joinable tables:
summed capacity range contains the party size and both members are free. -/
def pairCond (rs : List Reservation) (s e p : Int) (pr : Table × Table) : Bool :=
  decide (pr.1.capacityMin + pr.2.capacityMin ≤ p ∧
    p ≤ pr.1.capacityMax + pr.2.capacityMax) &&
  isTableAvailable pr.1 rs s e && isTableAvailable pr.2 rs s e

/-- Every unordered pair of distinct elements, enumerated in list order
(first component earlier in the list). -/
def orderedPairs : List Table → List (Table × Table)
  | [] => []
  | t :: ts => ts.map (fun u => (t, u)) ++ orderedPairs ts

/-- The table-selection policy as the spec words it: the first single table
whose `[capacityMin, capacityMax]` contains the party size and is
conflict-free; failing that, the first conflict-free single table with
`capacityMax ≥ partySize`; failing that, the first unordered pair of
distinct `isJoinable` tables (in list order) whose summed capacity range
contains the party size with both members conflict-free, represented by its
first table's id; otherwise nothing. -/
def tableMatcherSpec (tables : List Table) (reservations : List Reservation)
    (slotStart slotEnd partySize : Int) : Option String :=
  match tables.find? (fun t =>
      decide (t.capacityMin ≤ partySize ∧ partySize ≤ t.capacityMax) &&
      isTableAvailable t reservations slotStart slotEnd) with
  | some t => some t.id
  | none =>
    match tables.find? (fun t => decide (partySize ≤ t.capacityMax) &&
        isTableAvailable t reservations slotStart slotEnd) with
    | some t => some t.id
    | none =>
      ((orderedPairs (tables.filter (fun t => t.isJoinable))).find?
          (pairCond reservations slotStart slotEnd partySize)).map
        (fun pr => pr.1.id)

/-! ## The loops compute first-fit searches -/

theorem loopIdealTable_eq_find (rs : List Reservation) (s e p : Int)
    (l : List Table) :
    loopIdealTable rs s e p l =
      (l.find? (fun t =>
        decide (t.capacityMin ≤ p ∧ p ≤ t.capacityMax) &&
        isTableAvailable t rs s e)).map (fun t => t.id) := by
  induction l with
  | nil => rfl
  | cons t ts ih =>
    by_cases hc : t.capacityMin ≤ p ∧ p ≤ t.capacityMax
    · by_cases ha : isTableAvailable t rs s e
      · simp [loopIdealTable, hc, ha]
      · simp [loopIdealTable, hc, ha, ih]
    · simp [loopIdealTable, hc, ih]

theorem loopLargerTable_eq_find (rs : List Reservation) (s e p : Int)
    (l : List Table) :
    loopLargerTable rs s e p l =
      (l.find? (fun t => decide (p ≤ t.capacityMax) &&
        isTableAvailable t rs s e)).map (fun t => t.id) := by
  induction l with
  | nil => rfl
  | cons t ts ih =>
    by_cases hc : p ≤ t.capacityMax
    · by_cases ha : isTableAvailable t rs s e
      · simp [loopLargerTable, hc, ha]
      · simp [loopLargerTable, hc, ha, ih]
    · simp [loopLargerTable, hc, ih]

theorem loopJoinInner_eq_find (t1 : Table) (rs : List Reservation)
    (s e p : Int) (l : List Table) :
    loopJoinInner t1 rs s e p l =
      (l.find? (fun t2 => pairCond rs s e p (t1, t2))).map (fun _ => t1.id) := by
  induction l with
  | nil => rfl
  | cons t2 ts ih =>
    by_cases hc : t1.capacityMin + t2.capacityMin ≤ p ∧ p ≤ t1.capacityMax + t2.capacityMax
    · by_cases ha : isTableAvailable t1 rs s e ∧ isTableAvailable t2 rs s e
      · simp [loopJoinInner, hc, ha.1, ha.2, pairCond]
      · rw [Decidable.not_and_iff_or_not] at ha
        rcases ha with ha | ha <;>
          simp [loopJoinInner, hc, ih, pairCond, Bool.eq_false_iff.mpr ha]
    · simp [loopJoinInner, hc, ih, pairCond]

theorem loopJoinOuter_eq_find (rs : List Reservation) (s e p : Int)
    (l : List Table) :
    loopJoinOuter rs s e p l =
      ((orderedPairs l).find? (pairCond rs s e p)).map (fun pr => pr.1.id) := by
  induction l with
  | nil => rfl
  | cons t1 ts ih =>
    rw [loopJoinOuter, loopJoinInner_eq_find, orderedPairs, List.find?_append,
      List.find?_map]
    cases hf : ts.find? (fun t2 => pairCond rs s e p (t1, t2)) with
    | none =>
      have : (List.find? (pairCond rs s e p ∘ fun u => (t1, u)) ts) = none := by
        simpa [Function.comp] using hf
      simp [this, ih, Option.orElse]
    | some t2 =>
      have : (List.find? (pairCond rs s e p ∘ fun u => (t1, u)) ts) = some t2 := by
        simpa [Function.comp] using hf
      simp [this, Option.orElse]

/-- The source's table matcher equals the spec's ranked first-fit search. -/
theorem findAvailableTableForSlot_eq_spec (tables : List Table)
    (rs : List Reservation) (s e p : Int) :
    findAvailableTableForSlot tables rs s e p = tableMatcherSpec tables rs s e p := by
  rw [findAvailableTableForSlot, tableMatcherSpec, loopIdealTable_eq_find,
    loopLargerTable_eq_find, loopJoinOuter_eq_find]
  cases tables.find? (fun t =>
      decide (t.capacityMin ≤ p ∧ p ≤ t.capacityMax) &&
      isTableAvailable t rs s e) with
  | some t => rfl
  | none =>
    cases tables.find? (fun t => decide (p ≤ t.capacityMax) &&
        isTableAvailable t rs s e) with
    | some t => rfl
    | none => rfl

/-! ## Monotonicity: adding reservations can only remove availability -/

/-- A table free under a reservation list is free under any sublist. -/
theorem isTableAvailable_mono {R R' : List Reservation} (h : List.Sublist R R')
    (t : Table) (s e : Int) (ha : isTableAvailable t R' s e = true) :
    isTableAvailable t R s e = true := by
  simp only [isTableAvailable, beq_iff_eq, List.length_eq_zero] at ha ⊢
  have hs := h.filter (fun r =>
    r.tableId == some t.id && s < r.endTime && e > r.reservationTime)
  rw [ha] at hs
  exact List.sublist_nil.mp hs

/-- The matcher finds nothing under a reservation list if it finds nothing
under one of its sublists: extra reservations never create availability. -/
theorem findAvailableTableForSlot_none_mono {R R' : List Reservation}
    (h : List.Sublist R R') (tables : List Table) (s e p : Int)
    (h0 : findAvailableTableForSlot tables R s e p = none) :
    findAvailableTableForSlot tables R' s e p = none := by
  rw [findAvailableTableForSlot_eq_spec] at h0 ⊢
  unfold tableMatcherSpec at h0 ⊢
  cases h1 : tables.find? (fun t =>
      decide (t.capacityMin ≤ p ∧ p ≤ t.capacityMax) &&
      isTableAvailable t R s e) with
  | some t => rw [h1] at h0; exact absurd h0 (by simp)
  | none =>
  rw [h1] at h0
  cases h2 : tables.find? (fun t => decide (p ≤ t.capacityMax) &&
      isTableAvailable t R s e) with
  | some t => rw [h2] at h0; exact absurd h0 (by simp)
  | none =>
  rw [h2] at h0
  have h3 : (orderedPairs (tables.filter (fun t => t.isJoinable))).find?
      (pairCond R s e p) = none := by
    cases h3 : (orderedPairs (tables.filter (fun t => t.isJoinable))).find?
        (pairCond R s e p) with
    | none => rfl
    | some pr => rw [h3] at h0; exact absurd h0 (by simp [pairCond])
  have g1 : tables.find? (fun t =>
      decide (t.capacityMin ≤ p ∧ p ≤ t.capacityMax) &&
      isTableAvailable t R' s e) = none := by
    rw [List.find?_eq_none] at h1 ⊢
    intro t ht hpred
    apply h1 t ht
    simp only [Bool.and_eq_true] at hpred ⊢
    exact ⟨hpred.1, isTableAvailable_mono h t s e hpred.2⟩
  have g2 : tables.find? (fun t => decide (p ≤ t.capacityMax) &&
      isTableAvailable t R' s e) = none := by
    rw [List.find?_eq_none] at h2 ⊢
    intro t ht hpred
    apply h2 t ht
    simp only [Bool.and_eq_true] at hpred ⊢
    exact ⟨hpred.1, isTableAvailable_mono h t s e hpred.2⟩
  have g3 : (orderedPairs (tables.filter (fun t => t.isJoinable))).find?
      (pairCond R' s e p) = none := by
    rw [List.find?_eq_none] at h3 ⊢
    intro pr hpr hpred
    apply h3 pr hpr
    simp only [pairCond, Bool.and_eq_true] at hpred ⊢
    exact ⟨⟨hpred.1.1, isTableAvailable_mono h pr.1 s e hpred.1.2⟩,
      isTableAvailable_mono h pr.2 s e hpred.2⟩
  rw [g1, g2, g3]
  rfl

/-- The date-window reservation list read by `calculateAvailability` is a
sublist of the undated PENDING/CONFIRMED list read by
`findAvailableTable`. -/
theorem reservationsOnDate_sublist (s : Store) (rid : String) (dateStart : Int) :
    List.Sublist (reservationsOnDate s rid dateStart)
      (s.reservations.filter (fun r => r.restaurantId == rid && r.isActive)) := by
  unfold reservationsOnDate
  apply List.monotone_filter_right
  intro r hr
  simp only [Bool.and_eq_true] at hr ⊢
  exact ⟨hr.1.1.1, hr.2⟩

/-! ## Slot-list membership facts -/

/-- Every slot produced by the generation loop records exactly the matcher's
verdict at its own start instant. -/
theorem mem_genSlots {tables : List Table} {rs : List Reservation}
    {d turn last p : Int} {slot : AvailabilitySlot} :
    ∀ {cur : Int} {fuel : Nat},
    slot ∈ genSlots tables rs d turn last p cur fuel →
    slot.tableId = findAvailableTableForSlot tables rs
        (d + slot.time * msPerMinute)
        (d + slot.time * msPerMinute + turn * msPerMinute) p ∧
      slot.available = slot.tableId.isSome := by
  intro cur fuel
  induction fuel generalizing cur with
  | zero => intro h; exact absurd h (by simp [genSlots])
  | succ n ih =>
    intro h
    rw [genSlots] at h
    by_cases hle : d + cur * msPerMinute ≤ last
    · rw [if_pos hle] at h
      rcases List.mem_cons.mp h with h | h
      · subst h; exact ⟨rfl, rfl⟩
      · exact ih h
    · rw [if_neg hle] at h
      exact absurd h (by simp)

/-- Destructuring a slot of `calculateAvailability`: the restaurant resolves,
and the slot's availability flag is the matcher's verdict over the
date-filtered reservations at the slot's start instant. -/
theorem mem_calculateAvailability {s : Store} {rid : String}
    {dateStart dayOfWeek p : Int} {slot : AvailabilitySlot}
    (h : slot ∈ calculateAvailability s rid dateStart dayOfWeek p) :
    ∃ r, s.findRestaurant rid = some r ∧
      slot.tableId = findAvailableTableForSlot r.tables
        (reservationsOnDate s rid dateStart)
        (dateStart + slot.time * msPerMinute)
        (dateStart + slot.time * msPerMinute +
          (resolveTurnTime r.turnTimeRules p) * msPerMinute) p ∧
      slot.available = slot.tableId.isSome := by
  unfold calculateAvailability at h
  cases hr : s.findRestaurant rid with
  | none => rw [hr] at h; exact absurd h (by simp)
  | some r =>
    rw [hr] at h
    dsimp only at h
    cases hoh : r.operatingHours.find? (fun oh => oh.dayOfWeek == dayOfWeek) with
    | none => rw [hoh] at h; exact absurd h (by simp)
    | some oh =>
      rw [hoh] at h
      dsimp only at h
      refine ⟨r, rfl, ?_⟩
      split at h
      · exact absurd h (by simp)
      · split at h
        · exact absurd h (by simp)
        · split at h
          · exact absurd h (by simp)
          · split at h
            · exact absurd h (by simp)
            · exact mem_genSlots h

/-! ## Further fixtures for the lifecycle and policy claims -/

/-- The store after the §8 scenario's 19:00 party-of-2 booking (no
auto-confirm, so the row is PENDING). -/
def bookedStore : Store :=
  postWrite scenarioStore (newReservation "u1" "r1" "t1" sevenPm 2 90 false "res1")

/-- A restaurant with no tables/hours and a configurable policy, for the
cancellation claims. -/
def policyRestaurant (pol : Option CancellationPolicy) : Restaurant :=
  { id := "r1", tables := [], operatingHours := [], turnTimeRules := [],
    cancellationPolicy := pol }

/-- A single reservation row `c1` with the given status and time. -/
def reservationRow (st : ReservationStatus) (time : Int) : Reservation :=
  { id := "c1", userId := "u1", restaurantId := "r1", tableId := some "t1",
    reservationTime := time, partySize := 2, status := st, turnTimeUsed := 90 }

/-- Store holding one reservation `c1` against the policy restaurant. -/
def cancelStore (pol : Option CancellationPolicy) (st : ReservationStatus)
    (time : Int) : Store :=
  { restaurants := [policyRestaurant pol], reservations := [reservationRow st time] }

/-! ## Claim theorems -/

/-- C4: the conflict predicate of `isTableAvailable` is half-open: the table
is reported busy iff some reservation of that table satisfies
`slotStart < reservationEnd ∧ reservationStart < slotEnd`; and whenever the
proposed slot and a reservation merely abut (one ends exactly when the other
begins), that reservation raises no conflict. -/
theorem C4_conflict_predicate_half_open (t : Table) (r : Reservation)
    (rs : List Reservation) (s e : Int) :
    (isTableAvailable t rs s e = false ↔
      ∃ x ∈ rs, x.tableId = some t.id ∧ s < x.endTime ∧ x.reservationTime < e) ∧
    ((r.endTime = s ∨ e = r.reservationTime) → isTableAvailable t [r] s e = true) := by
  constructor
  · constructor
    · intro h
      have hne : rs.filter (fun x =>
          x.tableId == some t.id && s < x.endTime && e > x.reservationTime) ≠ [] := by
        intro hnil
        rw [isTableAvailable, hnil] at h
        simp at h
      obtain ⟨x, hx⟩ := List.exists_mem_of_ne_nil _ hne
      have hm := List.mem_filter.mp hx
      have hp := hm.2
      simp only [Bool.and_eq_true, beq_iff_eq, decide_eq_true_eq, gt_iff_lt] at hp
      exact ⟨x, hm.1, hp.1.1, hp.1.2, hp.2⟩
    · rintro ⟨x, hx, h1, h2, h3⟩
      have hmem : x ∈ rs.filter (fun x =>
          x.tableId == some t.id && s < x.endTime && e > x.reservationTime) :=
        List.mem_filter.mpr ⟨hx, by simp [h1, h2, h3]⟩
      rw [isTableAvailable]
      cases hfil : rs.filter (fun x =>
          x.tableId == some t.id && s < x.endTime && e > x.reservationTime) with
      | nil => rw [hfil] at hmem; simp at hmem
      | cons a l => simp
  · rintro (h | h) <;> simp [isTableAvailable, h]

/-- C5: the table assignment is the greedy first-fit search the spec
describes — first single table tightly containing the party size, then first
single table with `capacityMax ≥ partySize`, then the first unordered pair
of distinct joinable tables (in list order) whose summed capacity range
contains the party size with both members free, else nothing — and, being a
pure function of the ordered table list, it is deterministic. -/
theorem C5_matcher_is_greedy_first_fit (tables : List Table)
    (rs : List Reservation) (s e p : Int) :
    findAvailableTableForSlot tables rs s e p = tableMatcherSpec tables rs s e p :=
  findAvailableTableForSlot_eq_spec tables rs s e p

/-- C8: in the §8 scenario (17:00–22:00, 90-minute turn time, one `[2,4]`
table, no reservations), `GetAvailability(partySize=2)` yields exactly the 8
slots 17:00 (minute 1020) through 20:30 (minute 1230) at 30-minute steps —
`lastBookableStart = closeTime − turnTime = 20:30` inclusive — all
available. -/
theorem C8_scenario_slot_enumeration :
    calculateAvailability scenarioStore "r1" 0 0 2 =
      [⟨1020, true, some "t1"⟩, ⟨1050, true, some "t1"⟩,
       ⟨1080, true, some "t1"⟩, ⟨1110, true, some "t1"⟩,
       ⟨1140, true, some "t1"⟩, ⟨1170, true, some "t1"⟩,
       ⟨1200, true, some "t1"⟩, ⟨1230, true, some "t1"⟩] := by
  rfl

/-- Witness for C4: a reservation `[19:00-offset 0, +90min)` ending exactly
at slot start 5400000 raises no conflict. -/
theorem C4_witness :
    isTableAvailable tableA [reservationRow .PENDING 0] 5400000 10800000 = true :=
  (C4_conflict_predicate_half_open tableA (reservationRow .PENDING 0)
    [] 5400000 10800000).2 (Or.inl (by decide))

/-- The 19:00 party-of-2 booking row of the §8 scenario. -/
def bookedRow : Reservation := newReservation "u1" "r1" "t1" sevenPm 2 90 false "res1"

/-- C2 counterexample: after the 19:00 booking, the code reports minute 1200
(20:00) as unavailable — its interval `[20:00, 21:30)` still overlaps
`[19:00, 20:30)` under the half-open predicate — contradicting the claim
that 20:00 is the first slot available again. -/
theorem C2_counterexample_2000_unavailable :
    post scenarioStore 0 "u1" "r1" sevenPm 2 false "res1" = .ok (bookedRow, bookedStore) ∧
    (calculateAvailability bookedStore "r1" 0 0 2).find? (fun sl => sl.time == 1200) =
      some ⟨1200, false, none⟩ := ⟨rfl, rfl⟩

/-- C2 (amended): after the 19:00 party-of-2 booking, slots 18:00 (1080)
through 19:30 (1170) **and 20:00 (1200)** are unavailable for a second party
of 2, 17:00 and 17:30 remain available, and **20:30 (1230)** is the first
slot available again. -/
theorem C2_amended_availability_after_booking :
    post scenarioStore 0 "u1" "r1" sevenPm 2 false "res1" = .ok (bookedRow, bookedStore) ∧
    calculateAvailability bookedStore "r1" 0 0 2 =
      [⟨1020, true, some "t1"⟩, ⟨1050, true, some "t1"⟩,
       ⟨1080, false, none⟩, ⟨1110, false, none⟩, ⟨1140, false, none⟩,
       ⟨1170, false, none⟩, ⟨1200, false, none⟩, ⟨1230, true, some "t1"⟩] := ⟨rfl, rfl⟩

/-- The second racing request's row, also assigned `t1` for 19:00. -/
def raceRow2 : Reservation := newReservation "u2" "r1" "t1" sevenPm 2 90 false "res2"

/-- C1 (code bug): the creation route runs its availability check
(`findAvailableTable`) and its write (`prisma.reservation.create`) as two
separate steps with no transaction or lock, so two concurrent calls can both
run the check against the same initial store before either write lands. Both
checks assign table `t1` for the same 19:00 slot (first conjunct, applied to
each call); after both writes the store holds two overlapping PENDING
reservations on `t1` — Invariant I1 is violated (second conjunct). Under the
serialization the claim demands, the second call, seeing the first's write,
fails with no-availability instead (third conjunct). -/
theorem C1_unserialized_check_then_write :
    postCheck scenarioStore 0 "r1" sevenPm 2 = .ok ("t1", 90) ∧
    hasDoubleBooking (postWrite bookedStore raceRow2).reservations = true ∧
    post bookedStore 0 "u2" "r1" sevenPm 2 false "res2" =
      .error .noAvailability := ⟨rfl, rfl, rfl⟩

/-- The joined-pair booking row: party of 11 on tables `t1`+`t2`, persisting
only the primary id `t1`. -/
def joinRow1 : Reservation := newReservation "u1" "r2" "t1" sevenPm 11 90 false "res1"

/-- C10: a reservation row stored under a different table id never blocks a
table in the conflict check (first conjunct); hence the joined-pair booking
of a party of 11 persists only `t1` (second conjunct), and a subsequent
overlapping party of 4 is assigned the partner table `t2` (third
conjunct). -/
theorem C10_partner_table_left_free :
    (∀ (t2 : Table) (r : Reservation) (rest : List Reservation) (s e : Int),
      r.tableId ≠ some t2.id →
      isTableAvailable t2 (r :: rest) s e = isTableAvailable t2 rest s e) ∧
    post joinStore 0 "u1" "r2" sevenPm 11 false "res1" =
      .ok (joinRow1, postWrite joinStore joinRow1) ∧
    post (postWrite joinStore joinRow1) 0 "u2" "r2" sevenPm 4 false "res2" =
      .ok (newReservation "u2" "r2" "t2" sevenPm 4 90 false "res2",
        postWrite (postWrite joinStore joinRow1)
          (newReservation "u2" "r2" "t2" sevenPm 4 90 false "res2")) := by
  refine ⟨?_, rfl, rfl⟩
  intro t2 r rest s e hne
  have hfalse : (r.tableId == some t2.id) = false := by
    simp only [beq_eq_false_iff_ne, ne_eq]
    exact hne
  simp [isTableAvailable, List.filter_cons, hfalse]

/-- Witness for C10: the party-of-11 row on `t1` does not affect `t2`'s
availability. -/
theorem C10_witness :
    isTableAvailable ⟨"t2", 4, 6, true⟩ [joinRow1] 0 1 =
      isTableAvailable ⟨"t2", 4, 6, true⟩ [] 0 1 :=
  (C10_partner_table_left_free).1 ⟨"t2", 4, 6, true⟩ joinRow1 [] 0 1 (by decide)

/-- C3 counterexample: a NO_SHOW reservation is not rejected — the cancel
route guards only CANCELLED and COMPLETED — so the route transitions the
NO_SHOW row to CANCELLED, contradicting the claim that NO_SHOW is terminal
for every operation. -/
theorem C3_counterexample_no_show_cancellable :
    patchCancel (cancelStore none .NO_SHOW 0) 0 "c1" =
      .ok ({ reservationRow .NO_SHOW 0 with status := .CANCELLED },
        { restaurants := [policyRestaurant none],
          reservations := [{ reservationRow .NO_SHOW 0 with status := .CANCELLED }] }) :=
  rfl

/-- C3 (amended): CANCELLED and COMPLETED are terminal for the cancel route:
CancelReservation rejects a CANCELLED reservation with `alreadyCancelled`
and a COMPLETED one with `alreadyCompleted`, transitioning neither; NO_SHOW
is **not** guarded and is transitioned to CANCELLED. -/
theorem C3_amended_terminal_state_guards (s : Store) (now : Int) (rid : String)
    (r : Reservation)
    (hf : s.reservations.find? (fun x => x.id == rid) = some r) :
    (r.status = .CANCELLED → patchCancel s now rid = .error .alreadyCancelled) ∧
    (r.status = .COMPLETED → patchCancel s now rid = .error .alreadyCompleted) := by
  constructor <;> intro h <;> unfold patchCancel <;> rw [hf] <;> simp [h]

/-- Witness for C3: the guards fire on concrete CANCELLED and COMPLETED
rows. -/
theorem C3_witness :
    patchCancel (cancelStore none .CANCELLED 0) 0 "c1" = .error .alreadyCancelled ∧
    patchCancel (cancelStore none .COMPLETED 0) 0 "c1" = .error .alreadyCompleted :=
  ⟨(C3_amended_terminal_state_guards (cancelStore none .CANCELLED 0) 0 "c1"
      (reservationRow .CANCELLED 0) rfl).1 rfl,
   (C3_amended_terminal_state_guards (cancelStore none .COMPLETED 0) 0 "c1"
      (reservationRow .COMPLETED 0) rfl).2 rfl⟩

/-- A policy with a zero free-cancellation window, online cancellation
allowed. -/
def zeroWindowPolicy : CancellationPolicy :=
  { hoursBeforeNoFee := some 0, allowOnlineCancellation := true }

/-- C7 counterexample: with `hoursBeforeNoFee` set to `0` and the current
time one hour past the reservation (hours remaining −1 < threshold 0), the
claim demands rejection with the fee terms; the route's JavaScript
truthiness test `if (policy?.hoursBeforeNoFee)` treats the set value `0` as
unset, so the cancellation succeeds instead. -/
theorem C7_counterexample_zero_window :
    zeroWindowPolicy.hoursBeforeNoFee = some 0 ∧
    (reservationRow .PENDING 0).reservationTime - msPerHour < 0 * msPerHour ∧
    patchCancel (cancelStore (some zeroWindowPolicy) .PENDING 0) msPerHour "c1" =
      .ok ({ reservationRow .PENDING 0 with status := .CANCELLED },
        { restaurants := [policyRestaurant (some zeroWindowPolicy)],
          reservations := [{ reservationRow .PENDING 0 with status := .CANCELLED }] }) :=
  ⟨rfl, by decide, rfl⟩

/-- C7 (amended): for a non-terminal reservation, if
`allowOnlineCancellation` is false the cancellation is disallowed; else if
`hoursBeforeNoFee` is set **to a non-zero value** and the remaining time is
strictly below the threshold the cancellation is rejected; else — including
at exactly the threshold and when no window is set — it succeeds. -/
theorem C7_amended_policy_decision (s : Store) (now : Int) (rid : String)
    (r : Reservation) (rest : Restaurant) (pol : CancellationPolicy)
    (hf : s.reservations.find? (fun x => x.id == rid) = some r)
    (hs1 : r.status ≠ .CANCELLED) (hs2 : r.status ≠ .COMPLETED)
    (hrest : s.findRestaurant r.restaurantId = some rest)
    (hpol : rest.cancellationPolicy = some pol) :
    (pol.allowOnlineCancellation = false →
      patchCancel s now rid = .error .onlineCancellationDisallowed) ∧
    (∀ h : Int, pol.allowOnlineCancellation = true →
      pol.hoursBeforeNoFee = some h → h ≠ 0 →
      r.reservationTime - now < h * msPerHour →
      patchCancel s now rid = .error .tooLateToCancel) ∧
    (∀ h : Int, pol.allowOnlineCancellation = true →
      pol.hoursBeforeNoFee = some h → h ≠ 0 →
      h * msPerHour ≤ r.reservationTime - now →
      patchCancel s now rid =
        .ok ({ r with status := .CANCELLED },
          { s with reservations := s.reservations.map (fun x =>
              if x.id == rid then { x with status := .CANCELLED } else x) })) ∧
    (pol.allowOnlineCancellation = true → pol.hoursBeforeNoFee = none →
      patchCancel s now rid =
        .ok ({ r with status := .CANCELLED },
          { s with reservations := s.reservations.map (fun x =>
              if x.id == rid then { x with status := .CANCELLED } else x) })) := by
  have b1 : (r.status == ReservationStatus.CANCELLED) = false :=
    beq_eq_false_iff_ne.mpr hs1
  have b2 : (r.status == ReservationStatus.COMPLETED) = false :=
    beq_eq_false_iff_ne.mpr hs2
  refine ⟨?_, ?_, ?_, ?_⟩
  · intro hallow
    unfold patchCancel
    rw [hf]
    simp [b1, b2, hrest, hpol, hallow]
  · intro h hallow hh hnz hlt
    unfold patchCancel
    rw [hf]
    simp [b1, b2, hrest, hpol, hallow, hh, hnz, hlt]
  · intro h hallow hh hnz hge
    unfold patchCancel
    rw [hf]
    simp [b1, b2, hrest, hpol, hallow, hh, hnz, not_lt.mpr hge]
  · intro hallow hh
    unfold patchCancel
    rw [hf]
    simp [b1, b2, hrest, hpol, hallow, hh]

/-- A 24-hour free-cancellation policy, online cancellation allowed. -/
def dayWindowPolicy : CancellationPolicy :=
  { hoursBeforeNoFee := some 24, allowOnlineCancellation := true }

/-- A policy that forbids online cancellation. -/
def noOnlinePolicy : CancellationPolicy :=
  { hoursBeforeNoFee := some 24, allowOnlineCancellation := false }

/-- Witness for C7: disallowed when online cancellation is off; rejected at
23h59m remaining; successful at exactly 24h0m remaining. -/
theorem C7_witness :
    patchCancel (cancelStore (some noOnlinePolicy) .PENDING (24 * msPerHour)) 0 "c1" =
      .error .onlineCancellationDisallowed ∧
    patchCancel (cancelStore (some dayWindowPolicy) .PENDING (24 * msPerHour)) 60000 "c1" =
      .error .tooLateToCancel ∧
    patchCancel (cancelStore (some dayWindowPolicy) .PENDING (24 * msPerHour)) 0 "c1" =
      .ok ({ reservationRow .PENDING (24 * msPerHour) with status := .CANCELLED },
        { restaurants := [policyRestaurant (some dayWindowPolicy)],
          reservations :=
            [{ reservationRow .PENDING (24 * msPerHour) with status := .CANCELLED }] }) :=
  ⟨(C7_amended_policy_decision (cancelStore (some noOnlinePolicy) .PENDING (24 * msPerHour))
      0 "c1" (reservationRow .PENDING (24 * msPerHour)) (policyRestaurant (some noOnlinePolicy))
      noOnlinePolicy rfl (by decide) (by decide) rfl rfl).1 rfl,
   (C7_amended_policy_decision (cancelStore (some dayWindowPolicy) .PENDING (24 * msPerHour))
      60000 "c1" (reservationRow .PENDING (24 * msPerHour)) (policyRestaurant (some dayWindowPolicy))
      dayWindowPolicy rfl (by decide) (by decide) rfl rfl).2.1 24 rfl rfl
      (by decide) (by decide),
   (C7_amended_policy_decision (cancelStore (some dayWindowPolicy) .PENDING (24 * msPerHour))
      0 "c1" (reservationRow .PENDING (24 * msPerHour)) (policyRestaurant (some dayWindowPolicy))
      dayWindowPolicy rfl (by decide) (by decide) rfl rfl).2.2.1 24 rfl rfl
      (by decide) (by decide)⟩

/-- C9: `calculateAvailability` returns the empty slot list — never an
error — in every degraded case: unknown restaurant; no `OperatingHours` row
for the date's day-of-week (closed day); `openTime > closeTime`;
`openTime > lastBookableStart = closeTime − turnTime`; turn time
non-positive or above the 480-minute ceiling. -/
theorem C9_degraded_cases_empty (s : Store) (rid : String)
    (dateStart dayOfWeek p : Int) :
    (s.findRestaurant rid = none →
      calculateAvailability s rid dateStart dayOfWeek p = []) ∧
    (∀ r, s.findRestaurant rid = some r →
      r.operatingHours.find? (fun oh => oh.dayOfWeek == dayOfWeek) = none →
      calculateAvailability s rid dateStart dayOfWeek p = []) ∧
    (∀ r oh, s.findRestaurant rid = some r →
      r.operatingHours.find? (fun x => x.dayOfWeek == dayOfWeek) = some oh →
      (oh.openTime > oh.closeTime ∨
        oh.openTime > oh.closeTime - resolveTurnTime r.turnTimeRules p ∨
        resolveTurnTime r.turnTimeRules p ≤ 0 ∨
        resolveTurnTime r.turnTimeRules p > 480) →
      calculateAvailability s rid dateStart dayOfWeek p = []) := by
  refine ⟨?_, ?_, ?_⟩
  · intro h
    unfold calculateAvailability
    rw [h]
  · intro r hr hoh
    unfold calculateAvailability
    rw [hr]
    dsimp only
    rw [hoh]
  · intro r oh hr hoh hbad
    unfold calculateAvailability
    rw [hr]
    dsimp only
    rw [hoh]
    dsimp only
    split
    · rfl
    · split
      · rfl
      · rename_i hvalid hoc
        split
        · rfl
        · rename_i holb
          split
          · rfl
          · rename_i hturn
            exfalso
            rw [not_lt] at hoc holb
            simp only [msPerMinute] at hoc holb
            rcases hbad with hb | hb | hb | hb
            · omega
            · omega
            · exact hturn (Or.inl hb)
            · exact hturn (Or.inr hb)

/-- A restaurant with no operating hours at all (closed every day). -/
def closedRestaurant : Restaurant :=
  { id := "r1", tables := [], operatingHours := [], turnTimeRules := [],
    cancellationPolicy := none }

/-- A restaurant whose open time is after its close time. -/
def invertedHoursRestaurant : Restaurant :=
  { id := "r1", tables := [],
    operatingHours := [{ dayOfWeek := 0, openTime := 1320, closeTime := 1020 }],
    turnTimeRules := [], cancellationPolicy := none }

/-- A restaurant whose 400-minute turn time exceeds its 300-minute open
window (`openTime > lastBookableStart`). -/
def longTurnRestaurant : Restaurant :=
  { id := "r1", tables := [],
    operatingHours := [{ dayOfWeek := 0, openTime := 1020, closeTime := 1320 }],
    turnTimeRules := [{ partySizeMin := 1, partySizeMax := 20, turnTimeInMinutes := 400 }],
    cancellationPolicy := none }

/-- A restaurant whose 500-minute turn time exceeds the 480-minute sanity
ceiling while still fitting its open window. -/
def hugeTurnRestaurant : Restaurant :=
  { id := "r1", tables := [],
    operatingHours := [{ dayOfWeek := 0, openTime := 0, closeTime := 1439 }],
    turnTimeRules := [{ partySizeMin := 1, partySizeMax := 20, turnTimeInMinutes := 500 }],
    cancellationPolicy := none }

/-- Witness for C9: each degraded configuration concretely yields `[]` —
unknown restaurant; closed day; open after close; turn time longer than the
open window; turn time above the 480-minute ceiling. -/
theorem C9_witness :
    calculateAvailability { restaurants := [], reservations := [] } "r1" 0 0 2 = [] ∧
    calculateAvailability { restaurants := [closedRestaurant], reservations := [] }
      "r1" 0 0 2 = [] ∧
    calculateAvailability { restaurants := [invertedHoursRestaurant], reservations := [] }
      "r1" 0 0 2 = [] ∧
    calculateAvailability { restaurants := [longTurnRestaurant], reservations := [] }
      "r1" 0 0 2 = [] ∧
    calculateAvailability { restaurants := [hugeTurnRestaurant], reservations := [] }
      "r1" 0 0 2 = [] :=
  ⟨(C9_degraded_cases_empty _ "r1" 0 0 2).1 rfl,
   (C9_degraded_cases_empty _ "r1" 0 0 2).2.1 _ rfl rfl,
   (C9_degraded_cases_empty _ "r1" 0 0 2).2.2 _ _ rfl rfl (by decide),
   (C9_degraded_cases_empty _ "r1" 0 0 2).2.2 _ _ rfl rfl (by decide),
   (C9_degraded_cases_empty _ "r1" 0 0 2).2.2 _ _ rfl rfl (by decide)⟩

/-- C6: availability/create consistency — if `calculateAvailability` marks a
slot unavailable, then a creation request for the same restaurant, the same
instant (the slot's start on that date) and the same party size over the
same unchanged store fails with the no-availability error, persisting
nothing. (The request passes the creation route's own input validations:
party size in `[1, 20]` and an instant not in the past.) -/
theorem C6_unavailable_slot_rejected (s : Store) (rid uid newId : String)
    (dateStart dayOfWeek p now resTime : Int) (auto : Bool)
    (slot : AvailabilitySlot)
    (hmem : slot ∈ calculateAvailability s rid dateStart dayOfWeek p)
    (hunavail : slot.available = false)
    (htime : resTime = dateStart + slot.time * msPerMinute)
    (hp1 : 1 ≤ p) (hp2 : p ≤ 20) (hnow : now ≤ resTime) :
    post s now uid rid resTime p auto newId = .error .noAvailability := by
  obtain ⟨r, hr, htid, hav⟩ := mem_calculateAvailability hmem
  rw [hunavail] at hav
  have hnone : slot.tableId = none := by
    cases hx : slot.tableId with
    | none => rfl
    | some v => rw [hx] at hav; simp at hav
  rw [hnone] at htid
  have hdnone : findAvailableTableForSlot r.tables
      (reservationsOnDate s rid dateStart)
      (dateStart + slot.time * msPerMinute)
      (dateStart + slot.time * msPerMinute +
        resolveTurnTime r.turnTimeRules p * msPerMinute) p = none := htid.symm
  have hallnone := findAvailableTableForSlot_none_mono
    (reservationsOnDate_sublist s rid dateStart) r.tables
    (dateStart + slot.time * msPerMinute)
    (dateStart + slot.time * msPerMinute +
      resolveTurnTime r.turnTimeRules p * msPerMinute) p hdnone
  unfold post postCheck
  rw [if_neg (by omega : ¬(p < 1 ∨ p > 20))]
  rw [if_neg (by omega : ¬(resTime < now))]
  rw [hr]
  dsimp only
  unfold findAvailableTable
  rw [hr, htime]
  dsimp only
  rw [hallnone]

/-- Witness for C6: in the booked §8 scenario the 19:00 slot is reported
unavailable, and the matching creation request is rejected with
no-availability. -/
theorem C6_witness :
    post bookedStore 0 "u2" "r1" 68400000 2 false "res2" =
      .error .noAvailability :=
  C6_unavailable_slot_rejected bookedStore "r1" "u2" "res2" 0 0 2 0 68400000 false
    ⟨1140, false, none⟩ (by decide) rfl (by decide) (by decide) (by decide)
    (by decide)
